import Mathlib

/-
Shallow embedding of `src/index.js` (PlanningCenter YouTube Integration
userscript).

Modelling conventions:
- JavaScript `undefined` / absent values are `Option.none`.
- Machine times are epoch milliseconds as `Int`; the host timezone is an
  explicit fixed offset `off` in milliseconds (`LocalTime(t) = t + off`,
  `UTC(t) = t - off`, per ECMA-262 with a constant offset).
- JS truthiness on the values the script actually tests: a `String` is
  truthy iff non-empty, a number is truthy iff non-zero, `undefined` is
  falsy.
- Thrown JS errors are `Except.error` with the thrown message; functions
  that cannot throw return plain values.
- The browser environment (fetch results, login outcomes, page DOM) is an
  explicit input: a list of scripted outcomes consumed in order.
-/

/-- JS truthiness of a possibly-undefined string (`undefined` and `""` are falsy). -/
def jsTruthyStr : Option String → Bool
  | none => false
  | some s => !(s == "")

/-- JS truthiness of a possibly-undefined number (`undefined` and `0` are falsy). -/
def jsTruthyNum : Option Int → Bool
  | none => false
  | some n => !(n == 0)

/-- JS string conversion of a possibly-undefined string, as performed by a
template literal: `undefined` prints as the literal text "undefined". -/
def jsTemplateStr : Option String → String
  | none => "undefined"
  | some s => s

namespace JsDate

/-- ECMA-262 HourFromTime: floor(t / msPerHour) modulo HoursPerDay. -/
def HourFromTime (t : Int) : Int := (t / 3600000) % 24

/-- ECMA-262 MinFromTime: floor(t / msPerMinute) modulo MinutesPerHour. -/
def MinFromTime (t : Int) : Int := (t / 60000) % 60

/-- ECMA-262 SecFromTime: floor(t / msPerSecond) modulo SecondsPerMinute. -/
def SecFromTime (t : Int) : Int := (t / 1000) % 60

/-- ECMA-262 msFromTime: t modulo msPerSecond. -/
def msFromTime (t : Int) : Int := t % 1000

/-- ECMA-262 Day: floor(t / msPerDay). -/
def Day (t : Int) : Int := t / 86400000

/-- ECMA-262 MakeTime (already-integral arguments). -/
def MakeTime (h m s milli : Int) : Int := h * 3600000 + m * 60000 + s * 1000 + milli

/-- ECMA-262 MakeDate. -/
def MakeDate (day time : Int) : Int := day * 86400000 + time

/-- `Date.prototype.getSeconds` at a host with fixed UTC offset `off` (ms):
SecFromTime(LocalTime(t)). -/
def getSeconds (off t : Int) : Int := SecFromTime (t + off)

/-- `Date.prototype.setSeconds(s)` (one-argument form, milliseconds field kept)
at a host with fixed UTC offset `off` (ms), per ECMA-262: take the local time,
rebuild the date from its Day / Hour / Min fields with the new seconds value
(MakeTime does plain arithmetic, no field normalisation), convert back to UTC.
Returns the new time value. -/
def setSeconds (off t s : Int) : Int :=
  let tl := t + off
  MakeDate (Day tl) (MakeTime (HourFromTime tl) (MinFromTime tl) s (msFromTime tl)) - off

/-- Civil (proleptic Gregorian) date from days since 1970-01-01, the standard
era-based algorithm, used to model `Date.prototype.toISOString`'s date part. -/
def civilFromDays (z0 : Int) : Int × Int × Int :=
  let z := z0 + 719468
  let era := z / 146097
  let doe := z % 146097
  let yoe := (doe - doe / 1460 + doe / 36524 - doe / 146096) / 365
  let y := yoe + era * 400
  let doy := doe - (365 * yoe + yoe / 4 - yoe / 100)
  let mp := (5 * doy + 2) / 153
  let d := doy - (153 * mp + 2) / 5 + 1
  let m := mp + (if mp < 10 then 3 else -9)
  (y + (if m ≤ 2 then 1 else 0), m, d)

/-- Left-pad the decimal representation of a natural number to `width` digits. -/
def padNum (width : Nat) (n : Int) : String :=
  let s := toString n.toNat
  let pad := width - s.length
  String.mk (List.replicate pad (Char.ofNat 48)) ++ s

/-- `Date.prototype.toISOString` for times whose year is in 0..9999 (the
four-digit ISO format; the userscript only ever formats contemporary dates):
UTC fields, "YYYY-MM-DDTHH:mm:ss.sssZ". -/
def toISOString (t : Int) : String :=
  let day := Day t
  let ymd := civilFromDays day
  padNum 4 ymd.1 ++ "-" ++ padNum 2 ymd.2.1 ++ "-" ++ padNum 2 ymd.2.2
    ++ "T" ++ padNum 2 (HourFromTime t) ++ ":" ++ padNum 2 (MinFromTime t)
    ++ ":" ++ padNum 2 (SecFromTime t) ++ "." ++ padNum 3 (msFromTime t) ++ "Z"

end JsDate

/-- The two persisted entries the token service reads and writes:
`ACCESS_TOKEN` (a string) and `EXPIRY_TIME` (an epoch-ms number). `none`
models a key absent from the key-value settings storage. -/
structure TokenStore where
  accessToken : Option String
  expiryTime : Option Int
deriving DecidableEq, Repr

namespace TokenService

/-- `TokenService.getAccessToken`: `SettingsStorage.load(ACCESS_TOKEN_KEY)`. -/
def getAccessToken (st : TokenStore) : Option String := st.accessToken

/-- `TokenService.hasTokenExpired`: `!expiryTime || Date.now() > expiryTime`
(JS truthiness: an absent or zero expiry entry is falsy). -/
def hasTokenExpired (st : TokenStore) (now : Int) : Bool :=
  match st.expiryTime with
  | none => true
  | some e => e == 0 || decide (now > e)

/-- `TokenService.isUserAuthenticated`:
`this.getAccessToken() && !this.hasTokenExpired()`, read through JS
truthiness (the expression evaluates to the token string or a boolean; here
we keep its truthiness). -/
def isUserAuthenticated (st : TokenStore) (now : Int) : Bool :=
  jsTruthyStr (getAccessToken st) && !hasTokenExpired st now

/-- `TokenService.reset`: deletes both persisted entries. -/
def reset (_st : TokenStore) : TokenStore :=
  { accessToken := none, expiryTime := none }

end TokenService

/-- The shape of a well-typed Google OAuth token response, the input of
`AuthTokenValidator.validate` (field names as in the JSON payload). -/
structure TokenData where
  access_token : String
  expires_in : Int
  token_type : String
deriving DecidableEq, Repr

/-- `AuthToken`: the deserialized value object. -/
structure AuthToken where
  accessToken : String
  expiresIn : Int
  tokenType : String
deriving DecidableEq, Repr

namespace AuthTokenValidator

/-- `AuthTokenValidator.isValidAccessToken`: `token && token.length > 0`
(for a string argument, truthiness is non-emptiness). -/
def isValidAccessToken (token : String) : Bool :=
  !(token == "") && decide (token.length > 0)

/-- `AuthTokenValidator.isValidExpiresIn`: `expiresIn && expiresIn > 0`
(number truthiness: non-zero). -/
def isValidExpiresIn (expiresIn : Int) : Bool :=
  !(expiresIn == 0) && decide (expiresIn > 0)

/-- `AuthTokenValidator.isValidTokenType`:
`tokenType && tokenType === AuthToken.EXPECTED_TOKEN_TYPE` where the
expected token type is "Bearer". -/
def isValidTokenType (tokenType : String) : Bool :=
  !(tokenType == "") && (tokenType == "Bearer")

/-- `AuthTokenValidator.validate`: throws on missing data, then checks the
access token, the expiry, and the token type in that order, wrapping any
failure in an "Invalid data" error. `none` models a falsy `data` argument. -/
def validate (data : Option TokenData) : Except String Unit :=
  match data with
  | none => .error "No data provided."
  | some d =>
    if !isValidAccessToken d.access_token then
      .error "Invalid data: Error: Invalid access token."
    else if !isValidExpiresIn d.expires_in then
      .error "Invalid data: Error: Invalid expiration time."
    else if !isValidTokenType d.token_type then
      .error "Invalid data: Error: Invalid token type."
    else .ok ()

end AuthTokenValidator

namespace AuthToken

/-- `AuthToken.deserialize`: validates the raw data, re-wrapping a validation
failure, then builds the value object from the three fields. -/
def deserialize (data : Option TokenData) : Except String AuthToken :=
  match AuthTokenValidator.validate data with
  | .error e => .error ("Failed to validate auth token: " ++ e)
  | .ok _ =>
    match data with
    | none => .error "Failed to validate auth token: No data provided."
    | some d => .ok ⟨d.access_token, d.expires_in, d.token_type⟩

/-- `AuthToken.calculateExpirationTimestamp`: `now = new Date()`, then
`now.setSeconds(now.getSeconds() + this.expiresIn)`, then `now.getTime()`.
`off` is the host's fixed UTC offset in milliseconds and `now` the capture
time (epoch ms). -/
def calculateExpirationTimestamp (off now expiresIn : Int) : Int :=
  let newSeconds := JsDate.getSeconds off now + expiresIn
  JsDate.setSeconds off now newSeconds

end AuthToken

/-- The in-memory state of `AuthService` that `init` touches: the
`initialized` flag, plus a count of how many GSI script tags have been
appended to the document head (the observable effect of `injectGSIScript`). -/
structure AuthServiceState where
  initialized : Bool
  injectedScripts : Nat
deriving DecidableEq, Repr

namespace AuthService

/-- `AuthService.injectGSIScript`: appends one script element to the
document head (and waits for it to load). -/
def injectGSIScript (s : AuthServiceState) : AuthServiceState :=
  { s with injectedScripts := s.injectedScripts + 1 }

/-- `AuthService.init`: returns immediately when already initialized;
otherwise sets the flag and injects the Google Sign-In script. -/
def init (s : AuthServiceState) : AuthServiceState :=
  if s.initialized then s
  else injectGSIScript { s with initialized := true }

end AuthService

/-- A `fetch` Response as far as the script inspects it: its HTTP status and
the JSON body that `res.json()` would yield. `res.ok` is status 200..299. -/
structure Response where
  status : Nat
  body : String
deriving DecidableEq, Repr

/-- `Response.ok` per the Fetch standard: the status is in the range 200-299. -/
def Response.ok (r : Response) : Bool := 200 ≤ r.status && r.status ≤ 299

/-- The fetch-options object: method, body and a header list. `Headers.set`
replaces an existing entry of the same name or appends a new one. -/
structure Options where
  method : Option String := none
  body : Option String := none
  headers : List (String × String) := []
deriving DecidableEq, Repr

/-- `Headers.set`: overwrite the value of an existing header of that name,
or append the pair when the name is absent. -/
def setHeader (hs : List (String × String)) (k v : String) : List (String × String) :=
  if hs.any (fun p => p.1 == k) then
    hs.map (fun p => if p.1 == k then (k, v) else p)
  else hs ++ [(k, v)]

/-- Header lookup (first entry of the given name). -/
def lookupHeader (hs : List (String × String)) (k : String) : Option String :=
  (hs.find? (fun p => p.1 == k)).map (fun p => p.2)

namespace YouTubeApiService

/-- `YouTubeApiService.isUnauthorized`: the status is 401 or 403. -/
def isUnauthorized (status : Nat) : Bool :=
  status == 401 || status == 403

/-- `YouTubeApiService.getBearerToken`: the template literal
`BEARER_TOKEN_PREFIX + " " + accessToken`, where the stored access token may
be `undefined` (stringified as "undefined"). -/
def getBearerToken (token : Option String) : String :=
  "Bearer" ++ " " ++ jsTemplateStr token

/-- The header mutation `executeRequest` performs on its options before
fetching: `options.headers.set("Authorization", this.getBearerToken())`. -/
def withAuth (token : Option String) (o : Options) : Options :=
  { o with headers := setHeader o.headers "Authorization" (getBearerToken token) }

/-- The outcome of one scripted `fetch` call: a response, or a rejection
with an error message. -/
abbrev FetchOutcome := Except String Response

/-- The outcome of one scripted `authenticationService.login()` call: the
access token stored afterwards, or a thrown error message. -/
abbrev LoginOutcome := Except String (Option String)

/-- What a call to `executeRequest` produces: the value the promise resolves
with (`none` is `undefined`) and the requests actually handed to `fetch`, in
order, each with the options as mutated at send time. -/
structure ExecResult where
  value : Option String
  sent : List (String × Options)
deriving DecidableEq, Repr

/-- `YouTubeApiService.executeRequest`, run against a scripted environment:
`fetches` are the successive `fetch` outcomes (an empty list behaves as a
rejected fetch) and `logins` the successive `login()` outcomes (an empty
list behaves as a login that succeeds without changing the stored token);
`token` is the currently stored access token. The body mirrors the source:
set the Authorization header, fetch, delegate to `handleResponse`
(inlined here; see `YouTubeApiService.handleResponse` and the lemma
`executeRequest_catch_handleResponse` relating the two), and catch-and-log
any error, resolving with `undefined`. On 401/403 `handleResponse` runs
`login()`, waits the fixed delay, and re-enters `executeRequest` with the
same endpoint and the same (already mutated) options object. -/
def executeRequest :
    List FetchOutcome → List LoginOutcome → Option String → String → Options → ExecResult
  | [], _, token, endpoint, opts =>
    ⟨none, [(endpoint, withAuth token opts)]⟩
  | .error _ :: _, _, token, endpoint, opts =>
    ⟨none, [(endpoint, withAuth token opts)]⟩
  | .ok res :: rest, logins, token, endpoint, opts =>
    let o := withAuth token opts
    if res.ok then ⟨some res.body, [(endpoint, o)]⟩
    else if isUnauthorized res.status then
      match logins with
      | .error _ :: _ => ⟨none, [(endpoint, o)]⟩
      | .ok newTok :: ls =>
        let r := executeRequest rest ls newTok endpoint o
        ⟨r.value, (endpoint, o) :: r.sent⟩
      | [] =>
        let r := executeRequest rest [] token endpoint o
        ⟨r.value, (endpoint, o) :: r.sent⟩
    else ⟨none, [(endpoint, o)]⟩

/-- `YouTubeApiService.handleResponse` as the fallible step it is in the
source: `res.ok` resolves with the body; 401/403 logs in, waits, and
re-executes the request (a login failure propagates as a thrown error);
anything else throws the generic "Failed to fetch YouTube data." error.
`rest`/`logins` script the environment seen from this point on. -/
def handleResponse (res : Response) (rest : List FetchOutcome)
    (logins : List LoginOutcome) (token : Option String)
    (endpoint : String) (opts : Options) : Except String ExecResult :=
  if res.ok then .ok ⟨some res.body, []⟩
  else if isUnauthorized res.status then
    match logins with
    | .error e :: _ => .error e
    | .ok newTok :: ls => .ok (executeRequest rest ls newTok endpoint opts)
    | [] => .ok (executeRequest rest [] token endpoint opts)
  else .error "Failed to fetch YouTube data."

end YouTubeApiService

/-- `YouTubeStream`: title, optional description (never set by the
constructor), scheduled start time (a `Date`, modelled as epoch ms), and
visibility. -/
structure YouTubeStream where
  title : String
  description : Option String
  startTime : Int
  visibility : String
deriving DecidableEq, Repr

namespace YouTubeStream

/-- The `YouTubeStream` constructor: stores title and start time and
defaults the visibility to PRIVATE_STREAM_VISIBILITY ("private"); the
description field is left `undefined`. -/
def create (title : String) (startTime : Int) : YouTubeStream :=
  { title := title, description := none, startTime := startTime,
    visibility := "private" }

end YouTubeStream

/-- `JSON.stringify` of a string: quote it, escaping backslashes and double
quotes (the only escapes the script's payloads can need). -/
def jsonQuote (s : String) : String :=
  "\"" ++ String.join (s.data.map (fun c =>
    if c == '\\' then "\\\\" else if c == '"' then "\\\"" else String.mk [c])) ++ "\""

namespace YouTubeStreamService

/-- The JSON request body `uploadStream` builds and serializes:
`JSON.stringify` of
`(snippet: (title, description, scheduledStartTime), status: (privacyStatus))`
in insertion order, with no whitespace; a `description` that is `undefined`
is dropped by `JSON.stringify`. The start time is serialized with
`toISOString`. -/
def uploadStreamBody (stream : YouTubeStream) : String :=
  "\x7b\"snippet\":\x7b\"title\":" ++ jsonQuote stream.title
    ++ (match stream.description with
        | none => ""
        | some d => ",\"description\":" ++ jsonQuote d)
    ++ ",\"scheduledStartTime\":" ++ jsonQuote (JsDate.toISOString stream.startTime)
    ++ "\x7d,\"status\":\x7b\"privacyStatus\":" ++ jsonQuote stream.visibility
    ++ "\x7d\x7d"

end YouTubeStreamService

/-- The marker lookup target: the nearest ancestor `div` of a scraped
paragraph, as far as `getSongTitleFromParagraph` inspects it — whether
`div.querySelector("span")` finds a span. -/
structure AncestorDiv where
  hasSpan : Bool
deriving DecidableEq, Repr

/-- A paragraph inside the order-of-service container: its nearest ancestor
`div` (`closest("div")`, `none` when there is none) and its text content. -/
structure Paragraph where
  closestDiv : Option AncestorDiv
  textContent : String
deriving DecidableEq, Repr

namespace DomService

/-- `DomService.getSongTitleFromParagraph`: `paragraph.closest("div")`, then
`div.querySelector("span")`; the paragraph's text is a song title only when
both exist. -/
def getSongTitleFromParagraph (p : Paragraph) : Option String :=
  match p.closestDiv with
  | none => none
  | some d => if d.hasSpan then some p.textContent else none

/-- `DomService.getSongTitles`, over a page state: `none` models a page on
which the order-of-service container is absent — there the source logs an
error and executes a bare `return;`, so the call evaluates to `undefined`
(`none`), not to an array. With the container present, it collects the
truthy results of `getSongTitleFromParagraph` over the container's
paragraphs in order. -/
def getSongTitles (page : Option (List Paragraph)) : Option (List String) :=
  match page with
  | none => none
  | some paragraphs => some (paragraphs.filterMap getSongTitleFromParagraph)

end DomService

/- Helper lemmas (shared; not claim theorems). -/

/-- A non-empty string has positive length. -/
theorem string_length_pos_of_ne_empty (s : String) (h : s ≠ "") : 0 < s.length := by
  obtain ⟨l⟩ := s
  cases l with
  | nil => exact absurd rfl h
  | cons c t => simp [String.length]

/-- `isValidAccessToken` accepts exactly the non-empty strings. -/
theorem isValidAccessToken_iff (s : String) :
    AuthTokenValidator.isValidAccessToken s = true ↔ s ≠ "" := by
  unfold AuthTokenValidator.isValidAccessToken
  constructor
  · intro h
    simp only [Bool.and_eq_true, Bool.not_eq_true', beq_eq_false_iff_ne, ne_eq] at h
    exact h.1
  · intro h
    have hl := string_length_pos_of_ne_empty s h
    simp [h, hl]

/-- `isValidExpiresIn` accepts exactly the strictly positive numbers. -/
theorem isValidExpiresIn_iff (e : Int) :
    AuthTokenValidator.isValidExpiresIn e = true ↔ 0 < e := by
  unfold AuthTokenValidator.isValidExpiresIn
  simp only [Bool.and_eq_true, Bool.not_eq_true', beq_eq_false_iff_ne, ne_eq,
    decide_eq_true_eq]
  constructor
  · intro h; exact h.2
  · intro h; exact ⟨by omega, h⟩

/-- `isValidTokenType` accepts exactly the string "Bearer". -/
theorem isValidTokenType_iff (s : String) :
    AuthTokenValidator.isValidTokenType s = true ↔ s = "Bearer" := by
  unfold AuthTokenValidator.isValidTokenType
  constructor
  · intro h
    simp only [Bool.and_eq_true, beq_iff_eq] at h
    exact h.2
  · intro h
    subst h
    decide

/-- Claim C3, counterexample: with a stored token and stored expiry 1000, at
`now = 1000` (now equal to the stored expiry) `isUserAuthenticated` returns
true, while the claim demands false there (`now < expiry` fails): the source
uses `Date.now() > expiryTime`, so expiry is inclusive. -/
theorem isUserAuthenticated_at_expiry_counterexample :
    TokenService.isUserAuthenticated ⟨some "t", some 1000⟩ 1000 = true
      ∧ ¬((1000 : Int) < 1000) := by
  constructor
  · decide
  · omega

/-- Claim C3, amended: `isUserAuthenticated` returns true iff a truthy
(non-empty) access token is stored, a truthy (non-zero) expiry is stored,
and `now ≤ expiry` — the boundary is inclusive, since the source tests
`Date.now() > expiryTime`. -/
theorem isUserAuthenticated_iff (st : TokenStore) (now : Int) :
    TokenService.isUserAuthenticated st now = true ↔
      (∃ s, st.accessToken = some s ∧ s ≠ "")
        ∧ (∃ e, st.expiryTime = some e ∧ e ≠ 0 ∧ now ≤ e) := by
  obtain ⟨tok, exp⟩ := st
  cases tok with
  | none =>
    simp [TokenService.isUserAuthenticated, TokenService.getAccessToken, jsTruthyStr]
  | some s =>
    cases exp with
    | none =>
      simp [TokenService.isUserAuthenticated, TokenService.getAccessToken,
        TokenService.hasTokenExpired, jsTruthyStr]
    | some e =>
      simp only [TokenService.isUserAuthenticated, TokenService.getAccessToken,
        TokenService.hasTokenExpired, jsTruthyStr, Bool.and_eq_true,
        Bool.not_eq_true', Bool.or_eq_false_iff, beq_eq_false_iff_ne, ne_eq,
        decide_eq_false_iff_not, not_lt, Option.some.injEq]
      constructor
      · rintro ⟨h1, h2, h3⟩
        exact ⟨⟨s, rfl, h1⟩, ⟨e, rfl, h2, h3⟩⟩
      · rintro ⟨⟨s1, hs1, hs2⟩, ⟨e1, he1, he2, he3⟩⟩
        cases hs1; cases he1
        exact ⟨hs2, he2, he3⟩

/-- Claim C4: `AuthTokenValidator.validate` (and hence `AuthToken.deserialize`)
accepts a well-typed token object exactly when the access token is non-empty,
the token type is exactly "Bearer", and the expiry is strictly positive; it
throws in every other case. -/
theorem validate_accepts_iff (d : TokenData) :
    (AuthTokenValidator.validate (some d) = .ok () ↔
      d.access_token ≠ "" ∧ d.token_type = "Bearer" ∧ 0 < d.expires_in)
    ∧ ((∃ t, AuthToken.deserialize (some d) = .ok t) ↔
      d.access_token ≠ "" ∧ d.token_type = "Bearer" ∧ 0 < d.expires_in) := by
  have hv : AuthTokenValidator.validate (some d) = .ok () ↔
      d.access_token ≠ "" ∧ d.token_type = "Bearer" ∧ 0 < d.expires_in := by
    simp only [AuthTokenValidator.validate]
    split_ifs with h1 h2 h3
    · simp only [Bool.not_eq_eq_eq_not, Bool.not_true] at h1
      simp only [reduceCtorEq, false_iff]
      intro hcon
      rw [(isValidAccessToken_iff d.access_token).mpr hcon.1] at h1
      cases h1
    · simp only [Bool.not_eq_eq_eq_not, Bool.not_true] at h2
      simp only [reduceCtorEq, false_iff]
      intro hcon
      rw [(isValidExpiresIn_iff d.expires_in).mpr hcon.2.2] at h2
      cases h2
    · simp only [Bool.not_eq_eq_eq_not, Bool.not_true] at h3
      simp only [reduceCtorEq, false_iff]
      intro hcon
      rw [(isValidTokenType_iff d.token_type).mpr hcon.2.1] at h3
      cases h3
    · simp only [Bool.not_eq_eq_eq_not, Bool.not_true, Bool.not_eq_true] at h1 h2 h3
      simp only [true_iff]
      refine ⟨(isValidAccessToken_iff d.access_token).mp ?_,
        (isValidTokenType_iff d.token_type).mp ?_,
        (isValidExpiresIn_iff d.expires_in).mp ?_⟩
      · simpa using h1
      · simpa using h3
      · simpa using h2
  refine ⟨hv, ?_⟩
  constructor
  · rintro ⟨t, ht⟩
    rw [← hv]
    unfold AuthToken.deserialize at ht
    cases hval : AuthTokenValidator.validate (some d) with
    | error e => rw [hval] at ht; simp at ht
    | ok u => cases u; rfl
  · intro hcond
    refine ⟨⟨d.access_token, d.expires_in, d.token_type⟩, ?_⟩
    unfold AuthToken.deserialize
    rw [hv.mpr hcond]

/-- Claim C5: `isUserAuthenticated` is false immediately after `reset` (both
persisted entries deleted), and false whenever the stored expiry timestamp is
strictly in the past. -/
theorem reset_or_expired_not_authenticated (st : TokenStore) (now : Int) :
    TokenService.isUserAuthenticated (TokenService.reset st) now = false
      ∧ (∀ e, st.expiryTime = some e → e < now →
          TokenService.isUserAuthenticated st now = false) := by
  constructor
  · simp [TokenService.isUserAuthenticated, TokenService.getAccessToken,
      TokenService.reset, jsTruthyStr]
  · intro e he hlt
    obtain ⟨tok, exp⟩ := st
    cases exp with
    | none => cases he
    | some e2 =>
      have he2 : e2 = e := by simpa using he
      subst he2
      have hgt : now > e2 := hlt
      simp [TokenService.isUserAuthenticated, TokenService.hasTokenExpired, hgt]

/-- Claim C5, witness: the theorem instantiated at a store holding token "t"
and expiry 5, at `now = 10`. -/
theorem reset_or_expired_not_authenticated_witness :
    TokenService.isUserAuthenticated (TokenService.reset ⟨some "t", some 5⟩) 10 = false
      ∧ TokenService.isUserAuthenticated ⟨some "t", some 5⟩ 10 = false :=
  ⟨(reset_or_expired_not_authenticated ⟨some "t", some 5⟩ 10).1,
    (reset_or_expired_not_authenticated ⟨some "t", some 5⟩ 10).2 5 rfl (by omega)⟩

/-- Claim C8: `calculateExpirationTimestamp` equals the capture time plus
`expiresIn * 1000` milliseconds, for every integer `expiresIn`, every capture
time and every fixed host UTC offset: the seconds-field rollover through
`setSeconds` is exact. -/
theorem calculateExpirationTimestamp_eq (off now expiresIn : Int) :
    AuthToken.calculateExpirationTimestamp off now expiresIn
      = now + expiresIn * 1000 := by
  simp only [AuthToken.calculateExpirationTimestamp, JsDate.setSeconds,
    JsDate.getSeconds, JsDate.MakeDate, JsDate.MakeTime, JsDate.Day,
    JsDate.HourFromTime, JsDate.MinFromTime, JsDate.SecFromTime,
    JsDate.msFromTime]
  omega

/-- Claim C9: `AuthService.init` is idempotent — a second call returns
immediately, so two calls leave the same state as one — and from the fresh
state one call yields exactly one injected script with the flag set. -/
theorem init_idempotent (s : AuthServiceState) :
    AuthService.init (AuthService.init s) = AuthService.init s
      ∧ AuthService.init ⟨false, 0⟩ = ⟨true, 1⟩ := by
  constructor
  · by_cases h : s.initialized
    · simp [AuthService.init, h]
    · simp [AuthService.init, AuthService.injectGSIScript, h]
  · rfl

/-- Claim C2: with the order-of-service container absent, `getSongTitles`
executes a bare `return;` and evaluates to `undefined`, not to an empty list
(the spec says an empty list must come back; the caller immediately reads
`songs.length`, which on `undefined` throws, so the bare `return;` is a slip
in the code). On a present container, a paragraph whose nearest ancestor div
lacks a span marker — or which has no ancestor div — is excluded, and one
whose div has the marker is included. -/
theorem getSongTitles_missing_container :
    DomService.getSongTitles none = none
      ∧ DomService.getSongTitles none ≠ some []
      ∧ DomService.getSongTitles
          (some [⟨some ⟨false⟩, "Song A"⟩, ⟨none, "Song B"⟩, ⟨some ⟨true⟩, "Song C"⟩])
          = some ["Song C"] := by
  refine ⟨rfl, by simp [DomService.getSongTitles], by decide⟩

/-- How `executeRequest` relates to the fallible `handleResponse`: on a
delivered response, the result is the caught form of `handleResponse` — its
value on success, `undefined` on a thrown error — with the current request
recorded in front of whatever the handler sent. -/
theorem executeRequest_catch_handleResponse (res : Response)
    (rest : List YouTubeApiService.FetchOutcome)
    (logins : List YouTubeApiService.LoginOutcome) (token : Option String)
    (endpoint : String) (opts : Options) :
    YouTubeApiService.executeRequest (.ok res :: rest) logins token endpoint opts
      = match YouTubeApiService.handleResponse res rest logins token endpoint
          (YouTubeApiService.withAuth token opts) with
        | .ok r => ⟨r.value, (endpoint, YouTubeApiService.withAuth token opts) :: r.sent⟩
        | .error _ => ⟨none, [(endpoint, YouTubeApiService.withAuth token opts)]⟩ := by
  cases hok : res.ok with
  | true =>
    simp [YouTubeApiService.executeRequest, YouTubeApiService.handleResponse, hok]
  | false =>
    cases hu : YouTubeApiService.isUnauthorized res.status with
    | true =>
      cases logins with
      | nil =>
        simp [YouTubeApiService.executeRequest, YouTubeApiService.handleResponse, hok, hu]
      | cons l ls =>
        cases l with
        | error e =>
          simp [YouTubeApiService.executeRequest, YouTubeApiService.handleResponse, hok, hu]
        | ok newTok =>
          simp [YouTubeApiService.executeRequest, YouTubeApiService.handleResponse, hok, hu]
    | false =>
      simp [YouTubeApiService.executeRequest, YouTubeApiService.handleResponse, hok, hu]

/-- Claim C7: `executeRequest` never surfaces an error. When `handleResponse`
throws (a non-ok, non-401/403 response, or a login failure during the
reauth path), the outermost wrapper catches it, logs, and resolves with
`undefined`; a rejected fetch is swallowed the same way. -/
theorem executeRequest_swallows_errors (res : Response)
    (rest : List YouTubeApiService.FetchOutcome)
    (logins : List YouTubeApiService.LoginOutcome) (token : Option String)
    (endpoint : String) (opts : Options) (msg : String) :
    (YouTubeApiService.handleResponse res rest logins token endpoint
        (YouTubeApiService.withAuth token opts) = .error msg →
      YouTubeApiService.executeRequest (.ok res :: rest) logins token endpoint opts
        = ⟨none, [(endpoint, YouTubeApiService.withAuth token opts)]⟩)
    ∧ YouTubeApiService.executeRequest (.error msg :: rest) logins token endpoint opts
        = ⟨none, [(endpoint, YouTubeApiService.withAuth token opts)]⟩ := by
  constructor
  · intro h
    rw [executeRequest_catch_handleResponse, h]
  · rfl

/-- Claim C7, witness: a 500 response makes `handleResponse` throw the
generic error, and `executeRequest` resolves with `undefined` anyway. -/
theorem executeRequest_swallows_errors_witness :
    YouTubeApiService.handleResponse ⟨500, ""⟩ [] [] none "/x"
        (YouTubeApiService.withAuth none {}) = .error "Failed to fetch YouTube data."
      ∧ YouTubeApiService.executeRequest [.ok ⟨500, ""⟩] [] none "/x" {}
        = ⟨none, [("/x", YouTubeApiService.withAuth none {})]⟩ :=
  ⟨rfl,
    (executeRequest_swallows_errors ⟨500, ""⟩ [] [] none "/x" {}
      "Failed to fetch YouTube data.").1 rfl⟩

/-- Finding a key after `Headers.set` rewrote the matching entries. -/
theorem find_set_existing (hs : List (String × String)) (k v : String)
    (h : hs.any (fun p => p.1 == k) = true) :
    List.find? (fun p => p.1 == k)
      (hs.map (fun p => if p.1 == k then (k, v) else p)) = some (k, v) := by
  induction hs with
  | nil => cases h
  | cons p t ih =>
    rw [List.any_cons] at h
    cases hp : (p.1 == k) with
    | true =>
      simp only [List.map_cons, if_pos hp, List.find?, beq_self_eq_true]
    | false =>
      rw [hp, Bool.false_or] at h
      have hcond : ¬((p.1 == k) = true) := by rw [hp]; exact Bool.false_ne_true
      simp only [List.map_cons, if_neg hcond]
      simp only [List.find?, hp]
      exact ih h

/-- Finding a key appended behind entries that all miss it. -/
theorem find_set_appended (hs : List (String × String)) (k v : String)
    (h : hs.any (fun p => p.1 == k) = false) :
    List.find? (fun p => p.1 == k) (hs ++ [(k, v)]) = some (k, v) := by
  induction hs with
  | nil => simp
  | cons p t ih =>
    rw [List.any_cons] at h
    have hp : (p.1 == k) = false := by
      cases hpk : (p.1 == k) with
      | false => rfl
      | true => rw [hpk, Bool.true_or] at h; cases h
    rw [hp, Bool.false_or] at h
    simp only [List.cons_append]
    rw [List.find?_cons_of_neg _ (by simp [hp])]
    exact ih h

/-- `Headers.set` then lookup of the same name yields the value just set. -/
theorem lookupHeader_setHeader (hs : List (String × String)) (k v : String) :
    lookupHeader (setHeader hs k v) k = some v := by
  unfold lookupHeader setHeader
  by_cases h : hs.any (fun p => p.1 == k)
  · rw [if_pos h, find_set_existing hs k v h]
    rfl
  · rw [if_neg h, find_set_appended hs k v (Bool.eq_false_iff.mpr h)]
    rfl

/-- Claim C10: with no stored access token, `executeRequest` still sends the
request — the first request handed to `fetch` carries the mutated options —
and its Authorization header is the literal string "Bearer undefined"
(the template literal stringifies the missing token). -/
theorem executeRequest_missing_token_bearer_undefined
    (fetches : List YouTubeApiService.FetchOutcome)
    (logins : List YouTubeApiService.LoginOutcome)
    (endpoint : String) (opts : Options) :
    (YouTubeApiService.executeRequest fetches logins none endpoint opts).sent.head?
        = some (endpoint, YouTubeApiService.withAuth none opts)
      ∧ lookupHeader (YouTubeApiService.withAuth none opts).headers "Authorization"
        = some "Bearer undefined" := by
  constructor
  · cases fetches with
    | nil => rfl
    | cons f rest =>
      cases f with
      | error e => rfl
      | ok res =>
        rw [executeRequest_catch_handleResponse]
        cases YouTubeApiService.handleResponse res rest logins none endpoint
            (YouTubeApiService.withAuth none opts) with
        | ok r => rfl
        | error e => rfl
  · have hb : YouTubeApiService.getBearerToken none = "Bearer undefined" := by decide
    simp only [YouTubeApiService.withAuth, hb]
    exact lookupHeader_setHeader opts.headers "Authorization" "Bearer undefined"

/-- Claim C1, counterexample: a request whose first two fetches both come
back 401 (each login succeeding) is sent three times — the original and two
retries — since `handleResponse` re-enters `executeRequest` with no retry
counter; the claim's "no second retry ever occurs" fails on this trace. -/
theorem executeRequest_double_retry_counterexample :
    (YouTubeApiService.executeRequest
        [.ok ⟨401, ""⟩, .ok ⟨401, ""⟩, .ok ⟨200, "data"⟩]
        [.ok (some "t1"), .ok (some "t2")]
        none "/channels?part=snippet&mine=true" {}).sent.length = 3 := by
  rfl

/-- Claim C1, amended: on each 401/403 response the request is retried after
a successful login and the fixed delay, with no bound on the number of
retries: against a trace of `n` consecutive unauthorized responses followed
by a success, the request is sent `n + 1` times, every send goes to the same
endpoint, and the final body is returned. (A 401/403 never reaches the
generic error; that error is thrown only for other non-ok statuses.) -/
theorem executeRequest_retries_every_unauthorized (n : Nat) (endpoint : String)
    (opts : Options) (token tok : Option String) (b : String) :
    ((YouTubeApiService.executeRequest
        (List.replicate n (.ok ⟨401, ""⟩) ++ [.ok ⟨200, b⟩])
        (List.replicate n (.ok tok)) token endpoint opts).value = some b)
    ∧ ((YouTubeApiService.executeRequest
        (List.replicate n (.ok ⟨401, ""⟩) ++ [.ok ⟨200, b⟩])
        (List.replicate n (.ok tok)) token endpoint opts).sent.length = n + 1)
    ∧ ∀ p ∈ (YouTubeApiService.executeRequest
        (List.replicate n (.ok ⟨401, ""⟩) ++ [.ok ⟨200, b⟩])
        (List.replicate n (.ok tok)) token endpoint opts).sent, p.1 = endpoint := by
  induction n generalizing opts token with
  | zero =>
    have hok : Response.ok ⟨200, b⟩ = true := rfl
    refine ⟨rfl, rfl, ?_⟩
    intro p hp
    simp only [List.replicate, List.nil_append,
      YouTubeApiService.executeRequest, hok, if_true] at hp
    have hpp : p = (endpoint, YouTubeApiService.withAuth token opts) := by
      simpa using hp
    rw [hpp]
  | succ n ih =>
    have hok : Response.ok ⟨401, ""⟩ = false := rfl
    have hu : YouTubeApiService.isUnauthorized 401 = true := rfl
    simp only [List.replicate_succ, List.cons_append,
      YouTubeApiService.executeRequest, hok, hu, Bool.false_eq_true, if_false, if_true]
    obtain ⟨h1, h2, h3⟩ := ih (YouTubeApiService.withAuth token opts) tok
    refine ⟨h1, ?_, ?_⟩
    · simp [h2]
    · intro p hp
      rcases List.mem_cons.mp hp with rfl | hp
      · rfl
      · exact h3 p hp

/-- Claim C6: for a stream constructed with title "Worship Night" and start
time 2025-01-01T00:00:00Z (epoch 1735689600000 ms), description never set and
visibility left at its default, the serialized request body contains
the pair privacyStatus: "private" and the exact ISO-8601 string
"2025-01-01T00:00:00.000Z" as the scheduledStartTime. -/
theorem uploadStreamBody_default_private_iso :
    (∃ a b, YouTubeStreamService.uploadStreamBody
        (YouTubeStream.create "Worship Night" 1735689600000)
        = a ++ "\"privacyStatus\":\"private\"" ++ b)
    ∧ (∃ a b, YouTubeStreamService.uploadStreamBody
        (YouTubeStream.create "Worship Night" 1735689600000)
        = a ++ "\"scheduledStartTime\":\"2025-01-01T00:00:00.000Z\"" ++ b) := by
  constructor
  · exact ⟨"\x7b\"snippet\":\x7b\"title\":\"Worship Night\",\"scheduledStartTime\":\"2025-01-01T00:00:00.000Z\"\x7d,\"status\":\x7b",
      "\x7d\x7d", by decide⟩
  · exact ⟨"\x7b\"snippet\":\x7b\"title\":\"Worship Night\",",
      "\x7d,\"status\":\x7b\"privacyStatus\":\"private\"\x7d\x7d", by decide⟩

/-- Claim C1, witness: the amended theorem instantiated at one unauthorized
response followed by a success (one retry), with the membership hypothesis
discharged at the first sent request. -/
theorem executeRequest_retries_every_unauthorized_witness :
    ((YouTubeApiService.executeRequest
        (List.replicate 1 (.ok ⟨401, ""⟩) ++ [.ok ⟨200, "d"⟩])
        (List.replicate 1 (.ok (some "t"))) none "/x" {}).value = some "d")
    ∧ ((YouTubeApiService.executeRequest
        (List.replicate 1 (.ok ⟨401, ""⟩) ++ [.ok ⟨200, "d"⟩])
        (List.replicate 1 (.ok (some "t"))) none "/x" {}).sent.length = 2)
    ∧ ("/x", YouTubeApiService.withAuth none {}).1 = "/x" :=
  ⟨(executeRequest_retries_every_unauthorized 1 "/x" {} none (some "t") "d").1,
    (executeRequest_retries_every_unauthorized 1 "/x" {} none (some "t") "d").2.1,
    (executeRequest_retries_every_unauthorized 1 "/x" {} none (some "t") "d").2.2
      ("/x", YouTubeApiService.withAuth none {}) (by decide)⟩
